import Mathlib

/-!
# ciso8601 `timezone.c`: the `FixedOffset` tzinfo type

A shallow embedding of `src/timezone.c` and the properties of its
natural-language specification.

Conventions of the embedding.

* A C `int` is an `Int` together with the range `INT_MIN ≤ x ≤ INT_MAX`; arithmetic
  that can leave the range is reduced with `wrap32` (two's complement).
* A Python object is a value of `PyObject`; a tuple of objects is a `List PyObject`;
  a `NULL` result with a pending exception is `none` together with a `PyExc`.
* The CPython and libc routines called by the file (`PyArg_ParseTuple`,
  `PyLong_AsLong`, `abs`, `PyDelta_FromDSU`, `snprintf`, `PyMember_SetOne`) are
  modelled next to their callers, each with the part of its behaviour the file relies
  on.
* The build-time macros `PY_MAJOR_VERSION` and `PY_MINOR_VERSION` come from
  `Python.h`; they are a parameter `PyVersion` of the functions that use them.
-/

namespace Timezone

/-! ## Machine integers -/

def INT_MAX : Int := 2147483647

def INT_MIN : Int := -2147483648

def LONG_MAX : Int := 9223372036854775807

def LONG_MIN : Int := -9223372036854775808

/-- Membership in the range of a 32-bit signed C int. -/
def isInt (x : Int) : Prop := INT_MIN ≤ x ∧ x ≤ INT_MAX

instance (x : Int) : Decidable (isInt x) := by
  unfold isInt; exact inferInstance

/-- Two's complement reduction of an integer to the range of a C int. -/
def wrap32 (x : Int) : Int := (x + 2147483648) % 4294967296 - 2147483648

/-- Reinterpretation of a C int as an unsigned int (the conversion printf applies
for a u conversion). -/
def toUnsigned (x : Int) : Nat := (x % 4294967296).toNat

/-- The libc function abs on int: the negation is computed in int arithmetic, so
it wraps at INT_MIN. -/
def abs (x : Int) : Int := if x < 0 then wrap32 (-x) else x

/-- The C operator / on int operands: quotient truncated towards zero. -/
def cdiv (a b : Int) : Int := Int.tdiv a b

/-- The C operator % on int operands: remainder with the sign of the dividend. -/
def cmod (a b : Int) : Int := Int.tmod a b

/-- The C operator & on int operands, on the two's complement bit patterns. -/
def cand (a b : Int) : Int := wrap32 (Int.ofNat (Nat.land (toUnsigned a) (toUnsigned b)))

/-! ## Constants of the file -/

def SECS_PER_MIN : Int := 60

def SECS_PER_HOUR : Int := 60 * SECS_PER_MIN

def TWENTY_FOUR_HOURS_IN_SECONDS : Int := 86400

/-- The version of the Python headers the file is compiled against. -/
structure PyVersion where
  major : Nat
  minor : Nat
  deriving DecidableEq, Repr

def PY_VERSION_AT_LEAST_36 (v : PyVersion) : Bool :=
  (v.major == 3 && decide (v.minor ≥ 6)) || decide (v.major > 3)

/-! ## Python objects -/

/-- The Python values the file receives and produces. A timedelta carries its
normalised days, seconds and microseconds; index is an object that is not an int and
whose __index__ method returns the given integer; other is any object without an
integer value. -/
inductive PyObject where
  | none
  | long (v : Int)
  | unicode (s : String)
  | delta (days seconds microseconds : Int)
  | index (v : Int)
  | other (tag : Nat)
  deriving DecidableEq, Repr

/-- The exceptions the file and the routines it calls can raise. -/
inductive PyExc where
  | TypeError
  | OverflowError
  | ValueError (msg : String)
  | AttributeError
  deriving DecidableEq, Repr

/-- The instance layout: after the object header, the offset in seconds. -/
structure FixedOffset where
  offset : Int
  deriving DecidableEq, Repr

/-! ## `FixedOffset_init` -/

/-- The CPython routine PyLong_AsLong: the value of an int, or of the result of
__index__ for another object that has one (TypeError when it has none), which must fit
a C long (OverflowError otherwise). -/
def PyLong_AsLong : PyObject → Except PyExc Int
  | PyObject.long v =>
    if v > LONG_MAX ∨ v < LONG_MIN then Except.error PyExc.OverflowError else Except.ok v
  | PyObject.index v =>
    if v > LONG_MAX ∨ v < LONG_MIN then Except.error PyExc.OverflowError else Except.ok v
  | _ => Except.error PyExc.TypeError

/-- The call PyArg_ParseTuple(args, "i", &offset): the tuple must hold exactly one
object (TypeError otherwise), which is converted with PyLong_AsLong and must fit a C int
(OverflowError otherwise). -/
def PyArg_ParseTuple_i (args : List PyObject) : Except PyExc Int :=
  match args with
  | [arg] =>
    match PyLong_AsLong arg with
    | Except.error e => Except.error e
    | Except.ok v =>
      if v > INT_MAX then Except.error PyExc.OverflowError
      else if v < INT_MIN then Except.error PyExc.OverflowError
      else Except.ok v
  | _ => Except.error PyExc.TypeError

/-- The message of the ValueError raised by the range check. -/
def invalidOffsetMessage : String :=
  "offset must be an integer in the range (-86400, 86400), exclusive"

/-- The outcome of a call that returns an int status: the returned int, the instance
afterwards and the pending exception, if any. -/
structure Status where
  ret : Int
  self : FixedOffset
  err : Option PyExc
  deriving DecidableEq, Repr

/-- The outcome of a call that returns an object: the instance afterwards and the
returned value. -/
structure Ret (α : Type) where
  self : FixedOffset
  value : α
  deriving DecidableEq, Repr

/-- The initialiser; its kwargs parameter is never read by the code and is left out. -/
def FixedOffset_init (self : FixedOffset) (args : List PyObject) : Status :=
  match PyArg_ParseTuple_i args with
  | Except.error e => { ret := -1, self := self, err := some e }
  | Except.ok offset =>
    if abs offset ≥ TWENTY_FOUR_HOURS_IN_SECONDS then
      { ret := -1, self := self, err := some (PyExc.ValueError invalidOffsetMessage) }
    else
      { ret := 0, self := { self with offset := offset }, err := none }

/-! ## `FixedOffset_utcoffset` and `FixedOffset_dst` -/

/-- The largest number of days a timedelta can hold. -/
def MAX_DELTA_DAYS : Int := 999999999

/-- The macro PyDelta_FromDSU: a timedelta built from days, seconds and
microseconds, normalised so that 0 ≤ seconds < 86400 and 0 ≤ microseconds < 1000000;
NULL (OverflowError) when the normalised days leave the timedelta range. -/
def PyDelta_FromDSU (days seconds useconds : Int) : Option PyObject :=
  let s1 := seconds + useconds / 1000000
  let us := useconds % 1000000
  let d := days + s1 / 86400
  let s := s1 % 86400
  if -MAX_DELTA_DAYS ≤ d ∧ d ≤ MAX_DELTA_DAYS then some (PyObject.delta d s us) else none

/-- The length of a timedelta object in microseconds. -/
def deltaMicroseconds : PyObject → Option Int
  | PyObject.delta d s us => some ((d * 86400 + s) * 1000000 + us)
  | _ => none

def FixedOffset_utcoffset (self : FixedOffset) (_args : Option (List PyObject)) :
    Ret (Option PyObject) :=
  { self := self, value := PyDelta_FromDSU 0 self.offset 0 }

def FixedOffset_dst (self : FixedOffset) (_args : Option (List PyObject)) : Ret PyObject :=
  { self := self, value := PyObject.none }

/-! ## `FixedOffset_tzname` -/

/-- The printf conversion %02u: the decimal digits of the value, padded on the left
with zeros to at least two characters. -/
def fmt_02u (v : Nat) : List Char :=
  let ds := Nat.toDigits 10 v
  List.replicate (2 - ds.length) '0' ++ ds

/-- The call snprintf(buf, size, "UTC%c%02u:%02u", sign, h, m) on a zeroed buffer:
the formatted text, cut to the size - 1 characters that fit before the terminator. -/
def snprintf_tzname (size : Nat) (sign : Char) (h m : Int) : String :=
  String.mk (List.take (size - 1)
    ("UTC".toList ++ [sign] ++ fmt_02u (toUnsigned h) ++ [':'] ++ fmt_02u (toUnsigned m)))

/-- The local variable offset is a copy of the field; for a negative offset the sign
becomes a minus and the copy is multiplied by -1 in int arithmetic. -/
def FixedOffset_tzname (py : PyVersion) (self : FixedOffset)
    (_args : Option (List PyObject)) : Ret PyObject :=
  let offset := self.offset
  if offset = 0 then
    if PY_VERSION_AT_LEAST_36 py then { self := self, value := PyObject.unicode "UTC" }
    else { self := self, value := PyObject.unicode "UTC+00:00" }
  else
    let signed : Char × Int :=
      if offset < 0 then ('-', wrap32 (offset * -1)) else ('+', offset)
    let sign := signed.1
    let offset := signed.2
    { self := self,
      value := PyObject.unicode (snprintf_tzname 10 sign
        (cand (cdiv offset SECS_PER_HOUR) 31)
        (cmod (cdiv offset SECS_PER_MIN) SECS_PER_MIN)) }

/-! ## `FixedOffset_repr` and `FixedOffset_getinitargs` -/

def FixedOffset_repr (py : PyVersion) (self : FixedOffset) : Ret PyObject :=
  FixedOffset_tzname py self none

/-- The value is the 1-tuple packed by PyTuple_Pack(1, PyLong_FromLong(offset)). -/
def FixedOffset_getinitargs (self : FixedOffset) : Ret (List PyObject) :=
  { self := self, value := [PyObject.long self.offset] }

/-! ## Members and the type object -/

/-- The member types of structmember.h used by the file. -/
inductive MemberType where
  | T_INT
  deriving DecidableEq, Repr

/-- The flag of structmember.h that makes a member read-only. -/
def READONLY : Nat := 1

structure PyMemberDef where
  name : String
  type : MemberType
  flags : Nat
  doc : String
  deriving DecidableEq, Repr

def FixedOffset_members : List PyMemberDef :=
  [{ name := "offset", type := MemberType.T_INT, flags := 0, doc := "UTC offset" }]

/-- The CPython routine PyMember_SetOne on the offset field (value = none is a
deletion): a read-only member raises AttributeError, a deletion raises TypeError, the
value is converted with PyLong_AsLong, whose error is passed on, and the integer is
stored truncated to a C int. -/
def PyMember_SetOne (self : FixedOffset) (l : PyMemberDef) (value : Option PyObject) :
    Status :=
  if l.flags % 2 = READONLY then { ret := -1, self := self, err := some PyExc.AttributeError }
  else
    match value with
    | Option.none => { ret := -1, self := self, err := some PyExc.TypeError }
    | some v =>
      match l.type with
      | MemberType.T_INT =>
        match PyLong_AsLong v with
        | Except.error e => { ret := -1, self := self, err := some e }
        | Except.ok long_val =>
          { ret := 0, self := { self with offset := wrap32 long_val }, err := none }

/-- The CPython routine PyMember_GetOne on the offset field. -/
def PyMember_GetOne (self : FixedOffset) (l : PyMemberDef) : Ret PyObject :=
  match l.type with
  | MemberType.T_INT => { self := self, value := PyObject.long self.offset }

/-- The CPython routine PyType_GenericAlloc: a zero-filled instance, or NULL when no
memory is left. -/
def PyType_GenericAlloc (memory : Bool) : Option FixedOffset :=
  if memory then some { offset := 0 } else none

/-- The CPython routine PyType_GenericNew, which only calls the tp_alloc slot of the
type (no result when the slot is empty). -/
def PyType_GenericNew (tp_alloc : Option (Bool → Option FixedOffset)) (memory : Bool) :
    Option FixedOffset :=
  match tp_alloc with
  | some alloc => alloc memory
  | Option.none => none

/-- The slots of a type object the file fills or calls; an empty slot is none. -/
structure PyTypeObject where
  tp_name : String
  tp_repr : Option (FixedOffset → Ret PyObject)
  tp_str : Option (FixedOffset → Ret PyObject)
  tp_doc : String
  tp_members : List PyMemberDef
  tp_init : Option (FixedOffset → List PyObject → Status)
  tp_alloc : Option (Bool → Option FixedOffset)
  tp_new : Option (Option (Bool → Option FixedOffset) → Bool → Option FixedOffset)

/-- The static initialiser of the type object: name, repr, str and doc are set, the
other slots are empty. -/
def FixedOffset_type (py : PyVersion) : PyTypeObject :=
  { tp_name := "ciso8601.FixedOffset",
    tp_repr := some (FixedOffset_repr py),
    tp_str := some (FixedOffset_repr py),
    tp_doc := "TZInfo with fixed offset",
    tp_members := [],
    tp_init := none,
    tp_alloc := none,
    tp_new := none }

/-- The CPython routine PyType_Ready, for the slot the file relies on: an empty
tp_alloc is inherited from the base type, where it is PyType_GenericAlloc. -/
def PyType_Ready (type : PyTypeObject) : PyTypeObject :=
  match type.tp_alloc with
  | some _ => type
  | Option.none => { type with tp_alloc := some PyType_GenericAlloc }

/-- The type object as module initialisation leaves it: the slots assigned before
PyType_Ready, then PyType_Ready. -/
def initialize_timezone_code (py : PyVersion) : PyTypeObject :=
  PyType_Ready
    { FixedOffset_type py with
      tp_new := some PyType_GenericNew,
      tp_members := FixedOffset_members,
      tp_init := some FixedOffset_init }

/-- The trusted constructor on a given type object: no instance when the allocation
fails (or the type has no tp_alloc), else the instance with the offset as given. -/
def new_fixed_offset_ex (memory : Bool) (offset : Int) (type : PyTypeObject) :
    Option FixedOffset :=
  match type.tp_alloc with
  | Option.none => none
  | some alloc =>
    match alloc memory with
    | some self => some { self with offset := offset }
    | Option.none => none

/-- The trusted constructor on the global type object, which module initialisation
has filled before any call. -/
def new_fixed_offset (py : PyVersion) (memory : Bool) (offset : Int) : Option FixedOffset :=
  new_fixed_offset_ex memory offset (initialize_timezone_code py)

/-! ## The operations Python code can apply -/

/-- The call of the type object (CPython type_call): tp_new, then tp_init on the new
instance; NULL when either fails. -/
def type_call (type : PyTypeObject) (memory : Bool) (args : List PyObject) :
    Option FixedOffset :=
  match type.tp_new with
  | Option.none => none
  | some new =>
    match new type.tp_alloc memory with
    | Option.none => none
    | some obj =>
      match type.tp_init with
      | Option.none => some obj
      | some init =>
        let r := init obj args
        if r.ret < 0 then none else some r.self

/-- The operations the type exposes on an existing instance: a further call of the
initialiser, an assignment to or deletion of an attribute, a read of an attribute, the
four methods of FixedOffset_methods, and repr and str. -/
inductive Op where
  | init (args : List PyObject)
  | setattr (name : String) (value : Option PyObject)
  | getattr (name : String)
  | utcoffset (args : List PyObject)
  | dst (args : List PyObject)
  | tzname (args : List PyObject)
  | getinitargs
  | repr
  | str
  deriving DecidableEq, Repr

/-- The member descriptor of a given name, as attribute lookup finds it. -/
def findMember (name : String) (members : List PyMemberDef) : Option PyMemberDef :=
  members.find? (fun l => l.name == name)

/-- The instance after one operation, dispatched through the slots of the type. -/
def step (py : PyVersion) (self : FixedOffset) : Op → FixedOffset
  | Op.init args =>
    match (initialize_timezone_code py).tp_init with
    | some init => (init self args).self
    | Option.none => self
  | Op.setattr name value =>
    match findMember name (initialize_timezone_code py).tp_members with
    | some l => (PyMember_SetOne self l value).self
    | Option.none => self
  | Op.getattr name =>
    match findMember name (initialize_timezone_code py).tp_members with
    | some l => (PyMember_GetOne self l).self
    | Option.none => self
  | Op.utcoffset args => (FixedOffset_utcoffset self (some args)).self
  | Op.dst args => (FixedOffset_dst self (some args)).self
  | Op.tzname args => (FixedOffset_tzname py self (some args)).self
  | Op.getinitargs => (FixedOffset_getinitargs self).self
  | Op.repr =>
    match (initialize_timezone_code py).tp_repr with
    | some f => (f self).self
    | Option.none => self
  | Op.str =>
    match (initialize_timezone_code py).tp_str with
    | some f => (f self).self
    | Option.none => self

/-- The instance after a sequence of operations. -/
def run (py : PyVersion) (self : FixedOffset) (ops : List Op) : FixedOffset :=
  ops.foldl (step py) self

/-! ## The wording of the specification -/

/-- The invariant of the data model: the offset lies strictly within one day. -/
def validOffset (o : Int) : Prop := -86400 < o ∧ o < 86400

instance (o : Int) : Decidable (validOffset o) := by
  unfold validOffset; exact inferInstance

/-- The two-digit zero-padded decimal rendering of a number below 100. -/
def zero_pad2 (n : Nat) : String :=
  String.mk [Nat.digitChar (n / 10), Nat.digitChar (n % 10)]

/-- The display name of a non-zero offset in the words of the specification: the
text UTC, the sign, the padded hours, a colon and the padded minutes of the
magnitude. -/
def display_name_spec (o : Int) : String :=
  "UTC" ++ (if o > 0 then "+" else "-") ++ zero_pad2 (o.natAbs / 3600) ++ ":"
    ++ zero_pad2 ((o.natAbs / 60) % 60)

/-- The display name as the specification lets a reimplementation compute it: as
FixedOffset_tzname, with the hours offset / SECS_PER_HOUR passed to the format
directly, without the mask. -/
def tzname_without_mask (py : PyVersion) (self : FixedOffset)
    (_args : Option (List PyObject)) : Ret PyObject :=
  let offset := self.offset
  if offset = 0 then
    if PY_VERSION_AT_LEAST_36 py then { self := self, value := PyObject.unicode "UTC" }
    else { self := self, value := PyObject.unicode "UTC+00:00" }
  else
    let signed : Char × Int :=
      if offset < 0 then ('-', wrap32 (offset * -1)) else ('+', offset)
    let sign := signed.1
    let offset := signed.2
    { self := self,
      value := PyObject.unicode (snprintf_tzname 10 sign
        (cdiv offset SECS_PER_HOUR)
        (cmod (cdiv offset SECS_PER_MIN) SECS_PER_MIN)) }

/-! ## Lemmas on the machine arithmetic -/

/-- Away from INT_MIN the libc abs is the mathematical absolute value. -/
theorem abs_eq_natAbs (x : Int) (h : INT_MIN < x) (h2 : x ≤ INT_MAX) : abs x = x.natAbs := by
  unfold abs wrap32
  unfold INT_MIN at h
  unfold INT_MAX at h2
  split <;> omega

/-- At INT_MIN the negation wraps and abs returns INT_MIN. -/
theorem abs_INT_MIN : abs INT_MIN = INT_MIN := by decide

/-- The integer value of an object, when it has one: that of an int, or of __index__. -/
theorem PyLong_AsLong_ok (arg : PyObject) (v : Int) (h : PyLong_AsLong arg = Except.ok v) :
    (arg = PyObject.long v ∨ arg = PyObject.index v) ∧ LONG_MIN ≤ v ∧ v ≤ LONG_MAX := by
  cases arg with
  | long w =>
    simp only [PyLong_AsLong] at h
    split at h
    · cases h
    · cases h
      exact ⟨Or.inl rfl, by omega, by omega⟩
  | index w =>
    simp only [PyLong_AsLong] at h
    split at h
    · cases h
    · cases h
      exact ⟨Or.inr rfl, by omega, by omega⟩
  | none => cases h
  | unicode _ => cases h
  | delta _ _ _ => cases h
  | other _ => cases h

/-- An int or an __index__ value within the C int range is parsed to itself. -/
theorem parse_int (arg : PyObject) (o : Int)
    (harg : arg = PyObject.long o ∨ arg = PyObject.index o) (hint : isInt o) :
    PyArg_ParseTuple_i [arg] = Except.ok o := by
  unfold isInt INT_MIN INT_MAX at hint
  have h1 : ¬ (o > LONG_MAX ∨ o < LONG_MIN) := by unfold LONG_MAX LONG_MIN; omega
  have h3 : ¬ (o > INT_MAX) := by unfold INT_MAX; omega
  have h4 : ¬ (o < INT_MIN) := by unfold INT_MIN; omega
  rcases harg with rfl | rfl <;> simp [PyArg_ParseTuple_i, PyLong_AsLong, h1, h3, h4]

/-- An int outside the C int range is refused with OverflowError. -/
theorem parse_overflow (o : Int) (hint : ¬ isInt o) :
    PyArg_ParseTuple_i [PyObject.long o] = Except.error PyExc.OverflowError := by
  unfold PyArg_ParseTuple_i PyLong_AsLong
  by_cases h1 : o > LONG_MAX ∨ o < LONG_MIN
  · simp [h1]
  · simp only [h1, if_false]
    by_cases h3 : o > INT_MAX
    · simp [h3]
    · by_cases h4 : o < INT_MIN
      · simp [h3, h4]
      · exact absurd ⟨by omega, by omega⟩ hint

/-- A successful parse comes from a 1-tuple holding an int, or an object with
__index__, whose value fits a C int. -/
theorem parse_ok (args : List PyObject) (v : Int)
    (h : PyArg_ParseTuple_i args = Except.ok v) :
    ∃ arg, args = [arg] ∧ (arg = PyObject.long v ∨ arg = PyObject.index v) ∧ isInt v := by
  unfold PyArg_ParseTuple_i at h
  split at h
  · rename_i arg
    cases hl : PyLong_AsLong arg with
    | error e => rw [hl] at h; cases h
    | ok w =>
      rw [hl] at h
      simp only [] at h
      split at h
      · cases h
      · split at h
        · cases h
        · cases h
          exact ⟨arg, rfl, (PyLong_AsLong_ok arg v hl).1, ⟨by omega, by omega⟩⟩
  · cases h

/-- The initialiser accepts every offset strictly within one day and stores it. -/
theorem init_ok (self : FixedOffset) (o : Int) (h : -86400 < o) (h2 : o < 86400) :
    FixedOffset_init self [PyObject.long o] = { ret := 0, self := { offset := o }, err := none } := by
  have ha : abs o = o.natAbs := abs_eq_natAbs o (by unfold INT_MIN; omega) (by unfold INT_MAX; omega)
  have hp := parse_int (PyObject.long o) o (Or.inl rfl)
    ⟨by unfold INT_MIN; omega, by unfold INT_MAX; omega⟩
  have h5 : ¬ (abs o ≥ TWENTY_FOUR_HOURS_IN_SECONDS) := by
    rw [ha]; unfold TWENTY_FOUR_HOURS_IN_SECONDS; omega
  simp [FixedOffset_init, hp, h5]

/-- The timedelta built from an offset strictly within one day lasts that many seconds. -/
theorem delta_ok (o : Int) (h : -86400 < o) (h2 : o < 86400) :
    ∃ d, PyDelta_FromDSU 0 o 0 = some d ∧ deltaMicroseconds d = some (o * 1000000) := by
  unfold PyDelta_FromDSU MAX_DELTA_DAYS
  simp only [Int.zero_ediv, Int.zero_emod, add_zero, zero_add]
  have h1 : -999999999 ≤ o / 86400 ∧ o / 86400 ≤ 999999999 := by omega
  rw [if_pos h1]
  refine ⟨_, rfl, ?_⟩
  simp only [deltaMicroseconds, add_zero]
  congr 1
  omega

/-- Masking a C int with 31 keeps its residue modulo 32. -/
theorem cand_31 (x : Int) : cand x 31 = x % 32 := by
  unfold cand
  have h31 : toUnsigned 31 = 2 ^ 5 - 1 := by decide
  rw [h31]
  have hl : Nat.land (toUnsigned x) (2 ^ 5 - 1) = toUnsigned x % 2 ^ 5 :=
    Nat.and_pow_two_sub_one_eq_mod (toUnsigned x) 5
  rw [hl]
  unfold wrap32 toUnsigned
  simp only [Int.ofNat_eq_coe]
  omega

/-- A non-negative C int is its own unsigned reading. -/
theorem toUnsigned_natCast (n : Nat) (h : n < 4294967296) : toUnsigned (n : Int) = n := by
  unfold toUnsigned
  omega

/-- Below 100 the conversion prints exactly the tens digit and the units digit. -/
theorem fmt_02u_two_digits : ∀ n : Nat, n < 100 →
    fmt_02u n = [Nat.digitChar (n / 10), Nat.digitChar (n % 10)] := by
  decide

/-- The hour and minute arguments of the format, for a magnitude below one day. -/
theorem tzname_fields (m : Nat) (h : m < 86400) :
    toUnsigned (cand (cdiv (m : Int) SECS_PER_HOUR) 31) = m / 3600 ∧
    toUnsigned (cmod (cdiv (m : Int) SECS_PER_MIN) SECS_PER_MIN) = (m / 60) % 60 := by
  have h1 : cdiv (m : Int) SECS_PER_HOUR = ((m / 3600 : Nat) : Int) := rfl
  have h2 : cmod (cdiv (m : Int) SECS_PER_MIN) SECS_PER_MIN = (((m / 60) % 60 : Nat) : Int) := rfl
  rw [h1, h2, cand_31]
  constructor
  · unfold toUnsigned; omega
  · exact toUnsigned_natCast _ (by omega)

/-- With two-digit fields the formatted text has nine characters and nothing is cut. -/
theorem snprintf_tzname_eq (sign : Char) (h m : Int) (hh : toUnsigned h < 100)
    (hm : toUnsigned m < 100) :
    snprintf_tzname 10 sign h m = "UTC" ++ String.singleton sign ++ zero_pad2 (toUnsigned h)
      ++ ":" ++ zero_pad2 (toUnsigned m) := by
  unfold snprintf_tzname zero_pad2
  rw [fmt_02u_two_digits _ hh, fmt_02u_two_digits _ hm]
  rfl

/-- A call of the initialised type with a valid offset yields the instance holding it. -/
theorem type_call_ok (py : PyVersion) (o : Int) (h : -86400 < o) (h2 : o < 86400) :
    type_call (initialize_timezone_code py) true [PyObject.long o] = some { offset := o } := by
  simp [type_call, initialize_timezone_code, PyType_Ready, FixedOffset_type,
    PyType_GenericNew, PyType_GenericAlloc, init_ok _ o h h2]

/-- The name computed by the code is the name in the words of the specification. -/
theorem tzname_nonzero (py : PyVersion) (o : Int) (args : Option (List PyObject))
    (h0 : o ≠ 0) (h : o.natAbs < 86400) :
    (FixedOffset_tzname py { offset := o } args).value =
      PyObject.unicode (display_name_spec o) := by
  obtain ⟨hh, hm⟩ := tzname_fields o.natAbs h
  unfold FixedOffset_tzname display_name_spec
  simp only [h0, if_false]
  by_cases hneg : o < 0
  · have hw : wrap32 (o * -1) = (o.natAbs : Int) := by unfold wrap32; omega
    have hpos : ¬ (o > 0) := by omega
    simp only [hneg, if_true, hw, hpos, if_false]
    rw [snprintf_tzname_eq _ _ _ (by rw [hh]; omega) (by rw [hm]; omega), hh, hm]
    rfl
  · have hw : o = (o.natAbs : Int) := by omega
    have hpos : o > 0 := by omega
    simp only [hneg, if_false, hpos, if_true]
    rw [← hw] at hh hm
    rw [snprintf_tzname_eq _ _ _ (by rw [hh]; omega) (by rw [hm]; omega), hh, hm]
    rfl

/-- The trusted constructor stores its argument whenever the allocation succeeds. -/
theorem new_fixed_offset_eq (py : PyVersion) (memory : Bool) (o : Int) :
    new_fixed_offset py memory o = if memory then some { offset := o } else none := by
  cases memory <;> rfl

/-- Without memory a call of the type yields no instance. -/
theorem type_call_no_memory (py : PyVersion) (args : List PyObject) :
    type_call (initialize_timezone_code py) false args = none := rfl

/-- The name query leaves the instance as it was. -/
theorem tzname_self (py : PyVersion) (self : FixedOffset) (args : Option (List PyObject)) :
    (FixedOffset_tzname py self args).self = self := by
  unfold FixedOffset_tzname
  simp only []
  split
  · split <;> rfl
  · rfl

/-- A read of the member leaves the instance as it was. -/
theorem PyMember_GetOne_self (self : FixedOffset) (l : PyMemberDef) :
    (PyMember_GetOne self l).self = self := by
  unfold PyMember_GetOne
  split
  rfl

/-- The initialiser either fails and leaves the instance as it was, or parsed an
integer from its arguments, succeeds and stores it. -/
theorem init_self (self : FixedOffset) (args : List PyObject) :
    ((FixedOffset_init self args).ret = -1 ∧ (FixedOffset_init self args).self = self) ∨
      ∃ o, PyArg_ParseTuple_i args = Except.ok o ∧ (FixedOffset_init self args).ret = 0 ∧
        (FixedOffset_init self args).self = { offset := o } := by
  unfold FixedOffset_init
  cases hp : PyArg_ParseTuple_i args with
  | error e => left; exact ⟨rfl, rfl⟩
  | ok v =>
    simp only []
    split
    · left; exact ⟨rfl, rfl⟩
    · right
      exact ⟨v, rfl, rfl, rfl⟩

/-! ## Construction and the offset query -/

/-- C1: for every o with -86399 ≤ o ≤ 86399 the validating constructor succeeds on any
instance and stores o, a call of the type with o yields the instance of offset o, and
the offset query on it, for any instant argument, is PyDelta_FromDSU(0, o, 0), a
timedelta of exactly o seconds. -/
theorem C1_init_then_utcoffset (py : PyVersion) (self : FixedOffset) (o : Int)
    (args : Option (List PyObject)) (hlo : -86399 ≤ o) (hhi : o ≤ 86399) :
    FixedOffset_init self [PyObject.long o]
        = { ret := 0, self := { offset := o }, err := none } ∧
      type_call (initialize_timezone_code py) true [PyObject.long o]
        = some { offset := o } ∧
      (FixedOffset_utcoffset { offset := o } args).value = PyDelta_FromDSU 0 o 0 ∧
      ∃ d, (FixedOffset_utcoffset { offset := o } args).value = some d ∧
        deltaMicroseconds d = some (o * 1000000) :=
  ⟨init_ok self o (by omega) (by omega), type_call_ok py o (by omega) (by omega), rfl,
    delta_ok o (by omega) (by omega)⟩

/-- The statement of C1 at the offset -86399. -/
theorem C1_init_then_utcoffset_witness :
    ((-86399 : Int) ≤ -86399 ∧ (-86399 : Int) ≤ 86399) ∧
      (FixedOffset_init { offset := 0 } [PyObject.long (-86399)]
        = { ret := 0, self := { offset := -86399 }, err := none } ∧
      type_call (initialize_timezone_code { major := 3, minor := 12 }) true
        [PyObject.long (-86399)] = some { offset := -86399 } ∧
      (FixedOffset_utcoffset { offset := -86399 } none).value
        = PyDelta_FromDSU 0 (-86399) 0 ∧
      ∃ d, (FixedOffset_utcoffset { offset := -86399 } none).value = some d ∧
        deltaMicroseconds d = some (-86399 * 1000000)) :=
  ⟨by decide, C1_init_then_utcoffset { major := 3, minor := 12 } { offset := 0 } (-86399)
    none (by decide) (by decide)⟩

/-- Every C int outside the open range, apart from INT_MIN, is rejected by the
initialiser with the ValueError that names the range, and the instance is left as it
was. -/
theorem FixedOffset_init_rejects (self : FixedOffset) (o : Int) (hint : isInt o)
    (hmin : o ≠ INT_MIN) (hout : o ≤ -86400 ∨ o ≥ 86400) :
    FixedOffset_init self [PyObject.long o]
      = { ret := -1, self := self, err := some (PyExc.ValueError invalidOffsetMessage) } := by
  have hp := parse_int (PyObject.long o) o (Or.inl rfl) hint
  unfold isInt INT_MIN INT_MAX at hint
  unfold INT_MIN at hmin
  have ha : abs o = o.natAbs :=
    abs_eq_natAbs o (by unfold INT_MIN; omega) (by unfold INT_MAX; omega)
  have h5 : abs o ≥ TWENTY_FOUR_HOURS_IN_SECONDS := by
    rw [ha]; unfold TWENTY_FOUR_HOURS_IN_SECONDS; omega
  simp [FixedOffset_init, hp, h5]

/-- C2, at the failing input: the initialiser accepts INT_MIN, where abs wraps to a
negative value, returns 0 and stores -2147483648, an offset outside (-86400, 86400). -/
theorem C2_init_accepts_INT_MIN :
    abs (-2147483648) = -2147483648 ∧
      FixedOffset_init { offset := 0 } [PyObject.long (-2147483648)]
        = { ret := 0, self := { offset := -2147483648 }, err := none } := by
  decide

/-! ## The display name -/

/-- C3: for every offset o with 0 < |o| < 86400 the name is UTC, the sign of o, the
two-digit hours |o| / 3600, a colon and the two-digit minutes (|o| / 60) mod 60. -/
theorem C3_tzname_format (py : PyVersion) (o : Int) (args : Option (List PyObject))
    (hpos : 0 < o.natAbs) (hlt : o.natAbs < 86400) :
    (FixedOffset_tzname py { offset := o } args).value =
      PyObject.unicode ("UTC" ++ (if o > 0 then "+" else "-")
        ++ zero_pad2 (o.natAbs / 3600) ++ ":" ++ zero_pad2 ((o.natAbs / 60) % 60)) :=
  tzname_nonzero py o args (by omega) hlt

/-- The statement of C3 at the offsets 19800, -2700 and -86399. -/
theorem C3_tzname_format_witness :
    (0 < (19800 : Int).natAbs ∧ (19800 : Int).natAbs < 86400) ∧
      (FixedOffset_tzname { major := 3, minor := 12 } { offset := 19800 } none).value
        = PyObject.unicode "UTC+05:30" ∧
      (FixedOffset_tzname { major := 3, minor := 12 } { offset := -2700 } none).value
        = PyObject.unicode "UTC-00:45" ∧
      (FixedOffset_tzname { major := 2, minor := 7 } { offset := -86399 } none).value
        = PyObject.unicode "UTC-23:59" :=
  ⟨by decide,
    (C3_tzname_format { major := 3, minor := 12 } 19800 none (by decide) (by decide)).trans
      (by decide),
    (C3_tzname_format { major := 3, minor := 12 } (-2700) none (by decide) (by decide)).trans
      (by decide),
    (C3_tzname_format { major := 2, minor := 7 } (-86399) none (by decide) (by decide)).trans
      (by decide)⟩

/-- C4, as stated, fails for a build against Python 3.5: the name of offset 0 is
UTC+00:00 there, not UTC. -/
theorem C4_legacy_counterexample :
    (FixedOffset_tzname { major := 3, minor := 5 } { offset := 0 } none).value
        = PyObject.unicode "UTC+00:00" ∧
      (FixedOffset_tzname { major := 3, minor := 5 } { offset := 0 } none).value
        ≠ PyObject.unicode "UTC" := by
  decide

/-- C4, amended: for an instance whose offset is 0 and any instant argument, the name
is the literal UTC when the file is compiled for Python 3.6 or later, and UTC+00:00
in a build for an older Python. -/
theorem C4_tzname_zero (py : PyVersion) (self : FixedOffset)
    (args : Option (List PyObject)) (h0 : self.offset = 0) :
    (PY_VERSION_AT_LEAST_36 py = true →
        (FixedOffset_tzname py self args).value = PyObject.unicode "UTC") ∧
      (PY_VERSION_AT_LEAST_36 py = false →
        (FixedOffset_tzname py self args).value = PyObject.unicode "UTC+00:00") := by
  constructor
  · intro hpy
    simp [FixedOffset_tzname, h0, hpy]
  · intro hpy
    simp [FixedOffset_tzname, h0, hpy]

/-- The amended C4 for builds against Python 3.6 and against Python 2.7. -/
theorem C4_tzname_zero_witness :
    ({ offset := 0 } : FixedOffset).offset = 0 ∧
      (FixedOffset_tzname { major := 3, minor := 6 } { offset := 0 }
        (some [PyObject.other 1])).value = PyObject.unicode "UTC" ∧
      (FixedOffset_tzname { major := 2, minor := 7 } { offset := 0 }
        (some [PyObject.other 1])).value = PyObject.unicode "UTC+00:00" :=
  ⟨rfl,
    (C4_tzname_zero { major := 3, minor := 6 } { offset := 0 }
      (some [PyObject.other 1]) rfl).1 (by decide),
    (C4_tzname_zero { major := 2, minor := 7 } { offset := 0 }
      (some [PyObject.other 1]) rfl).2 (by decide)⟩

/-! ## Persistence -/

/-- C5: for every valid o, the reduced form of an instance constructed with o is the
1-tuple (o,), and a call of the type with that tuple succeeds and yields an instance
whose offset is o and whose offset query is a timedelta of o seconds. -/
theorem C5_getinitargs_round_trip (py : PyVersion) (o : Int)
    (args : Option (List PyObject)) (h : o.natAbs < 86400) :
    ∃ inst, type_call (initialize_timezone_code py) true [PyObject.long o] = some inst ∧
      (FixedOffset_getinitargs inst).value = [PyObject.long o] ∧
      ∃ inst2, type_call (initialize_timezone_code py) true
          (FixedOffset_getinitargs inst).value = some inst2 ∧
        inst2.offset = o ∧
        (FixedOffset_utcoffset inst2 args).value = PyDelta_FromDSU 0 o 0 ∧
        ∃ d, (FixedOffset_utcoffset inst2 args).value = some d ∧
          deltaMicroseconds d = some (o * 1000000) :=
  ⟨{ offset := o }, type_call_ok py o (by omega) (by omega), rfl,
    { offset := o }, type_call_ok py o (by omega) (by omega), rfl, rfl,
    delta_ok o (by omega) (by omega)⟩

/-- The statement of C5 at the offset -3600. -/
theorem C5_getinitargs_round_trip_witness :
    (-3600 : Int).natAbs < 86400 ∧
      ∃ inst, type_call (initialize_timezone_code { major := 3, minor := 12 }) true
          [PyObject.long (-3600)] = some inst ∧
        (FixedOffset_getinitargs inst).value = [PyObject.long (-3600)] ∧
        ∃ inst2, type_call (initialize_timezone_code { major := 3, minor := 12 }) true
            (FixedOffset_getinitargs inst).value = some inst2 ∧
          inst2.offset = -3600 ∧
          (FixedOffset_utcoffset inst2 none).value = PyDelta_FromDSU 0 (-3600) 0 ∧
          ∃ d, (FixedOffset_utcoffset inst2 none).value = some d ∧
            deltaMicroseconds d = some (-3600 * 1000000) :=
  ⟨by decide, C5_getinitargs_round_trip { major := 3, minor := 12 } (-3600) none
    (by decide)⟩

/-! ## The invariant and the frame of the operations -/

/-- C6, at the failing input: on an instance constructed with 0, the assignment of
86400 to the exported member offset is accepted (the member is declared with flags 0,
not READONLY) and leaves the instance with offset 86400, outside (-86400, 86400); a
further call of the initialiser with INT_MIN leaves it with offset -2147483648. -/
theorem C6_member_write_breaks_invariant :
    type_call (initialize_timezone_code { major := 3, minor := 12 }) true
        [PyObject.long 0] = some { offset := 0 } ∧
      run { major := 3, minor := 12 } { offset := 0 }
        [Op.setattr "offset" (some (PyObject.long 86400))] = { offset := 86400 } ∧
      ¬ validOffset (run { major := 3, minor := 12 } { offset := 0 }
        [Op.setattr "offset" (some (PyObject.long 86400))]).offset ∧
      run { major := 3, minor := 12 } { offset := 0 }
        [Op.init [PyObject.long (-2147483648)]] = { offset := -2147483648 } := by
  decide

/-- C7, as stated, fails: on an instance constructed with 3600, a further call of the
initialiser with 7200 succeeds and leaves the stored offset 7200. -/
theorem C7_reinit_counterexample :
    type_call (initialize_timezone_code { major := 3, minor := 12 }) true
        [PyObject.long 3600] = some { offset := 3600 } ∧
      FixedOffset_init { offset := 3600 } [PyObject.long 7200]
        = { ret := 0, self := { offset := 7200 }, err := none } ∧
      (run { major := 3, minor := 12 } { offset := 3600 }
        [Op.init [PyObject.long 7200]]).offset ≠ 3600 := by
  decide

/-- C7, amended: on any instance, every exposed operation other than an assignment to
an attribute and a call of the initialiser (utcoffset, dst, tzname, repr, str,
getinitargs, a read of an attribute) leaves the instance as it was; a call of the
initialiser returns -1 or 0; when it returns -1 the instance is as it was; when it
returns 0 its argument tuple held one object, an int or an object with __index__, of
value o, and the stored offset is o afterwards. -/
theorem C7_offset_frame (py : PyVersion) (self : FixedOffset) (op : Op)
    (hop : ∀ name value, op ≠ Op.setattr name value) :
    ((∀ args, op ≠ Op.init args) → step py self op = self) ∧
      ∀ args, op = Op.init args →
        ((FixedOffset_init self args).ret = -1 ∨ (FixedOffset_init self args).ret = 0) ∧
        ((FixedOffset_init self args).ret = -1 → step py self op = self) ∧
        ((FixedOffset_init self args).ret = 0 →
          ∃ arg o, args = [arg] ∧ (arg = PyObject.long o ∨ arg = PyObject.index o) ∧
            step py self op = { offset := o }) := by
  constructor
  · intro hni
    cases op with
    | init args => exact absurd rfl (hni args)
    | setattr name value => exact absurd rfl (hop name value)
    | getattr name =>
      simp only [step]
      split
      · rw [PyMember_GetOne_self]
      · rfl
    | utcoffset args => rfl
    | dst args => rfl
    | tzname args => exact tzname_self py self (some args)
    | getinitargs => rfl
    | repr => exact tzname_self py self none
    | str => exact tzname_self py self none
  · intro args hinit
    subst hinit
    have hstep : step py self (Op.init args) = (FixedOffset_init self args).self := rfl
    rw [hstep]
    rcases init_self self args with ⟨hr, hs⟩ | ⟨o, hp, hr, hs⟩
    · refine ⟨Or.inl hr, fun _ => hs, fun h0 => ?_⟩
      rw [hr] at h0
      exact absurd h0 (by decide)
    · refine ⟨Or.inr hr, fun h1 => ?_, fun _ => ?_⟩
      · rw [hr] at h1
        exact absurd h1 (by decide)
      · obtain ⟨arg, ha, hv, _⟩ := parse_ok args o hp
        exact ⟨arg, o, ha, hv, hs⟩

/-- The amended C7 at a call of the initialiser with 7200 on an instance of offset
3600: the call returns 0 and the stored offset is the argument. -/
theorem C7_offset_frame_witness :
    (∀ name value, Op.init [PyObject.long 7200] ≠ Op.setattr name value) ∧
      (FixedOffset_init { offset := 3600 } [PyObject.long 7200]).ret = 0 ∧
      ∃ arg o, [PyObject.long 7200] = [arg] ∧
        (arg = PyObject.long o ∨ arg = PyObject.index o) ∧
        step { major := 3, minor := 12 } { offset := 3600 }
          (Op.init [PyObject.long 7200]) = { offset := o } :=
  ⟨fun _ _ h => Op.noConfusion h, by decide,
    ((C7_offset_frame { major := 3, minor := 12 } { offset := 3600 }
      (Op.init [PyObject.long 7200]) (fun _ _ h => Op.noConfusion h)).2
        [PyObject.long 7200] rfl).2.2 (by decide)⟩

/-! ## The DST query and the representations -/

/-- C8: for every instance and every instant argument the DST query returns None,
the same value whatever the offset and the instant. -/
theorem C8_dst_none (self : FixedOffset) (args : Option (List PyObject)) :
    (FixedOffset_dst self args).value = PyObject.none ∧
      ∀ (self2 : FixedOffset) (args2 : Option (List PyObject)),
        (FixedOffset_dst self2 args2).value = (FixedOffset_dst self args).value :=
  ⟨rfl, fun _ _ => rfl⟩

/-- C9: the slots tp_repr and tp_str of the type both hold FixedOffset_repr, and for
every instance its result is the display name of the same instance, whatever the
instant argument the name is asked with. -/
theorem C9_repr_eq_tzname (py : PyVersion) (self : FixedOffset)
    (args : Option (List PyObject)) :
    (initialize_timezone_code py).tp_repr = some (FixedOffset_repr py) ∧
      (initialize_timezone_code py).tp_str = some (FixedOffset_repr py) ∧
      FixedOffset_repr py self = FixedOffset_tzname py self args :=
  ⟨rfl, rfl, rfl⟩

/-! ## The trusted constructor -/

/-- C10: for every o with |o| < 86400 the trusted constructor and a call of the type
with o give the same result, with memory or without; with memory both are the instance
of offset o, and any two instances so obtained agree on the stored offset and on
utcoffset, dst, tzname and getinitargs. -/
theorem C10_trusted_eq_validating (py : PyVersion) (o : Int) (memory : Bool)
    (h : o.natAbs < 86400) :
    new_fixed_offset py memory o
        = type_call (initialize_timezone_code py) memory [PyObject.long o] ∧
      new_fixed_offset py true o = some { offset := o } ∧
      ∀ a b, new_fixed_offset py true o = some a →
        type_call (initialize_timezone_code py) true [PyObject.long o] = some b →
        a.offset = b.offset ∧
          ∀ args, FixedOffset_utcoffset a args = FixedOffset_utcoffset b args ∧
            FixedOffset_dst a args = FixedOffset_dst b args ∧
            FixedOffset_tzname py a args = FixedOffset_tzname py b args ∧
            FixedOffset_getinitargs a = FixedOffset_getinitargs b := by
  have hc := type_call_ok py o (by omega) (by omega)
  refine ⟨?_, new_fixed_offset_eq py true o, ?_⟩
  · cases memory
    · rw [new_fixed_offset_eq, type_call_no_memory]; rfl
    · rw [new_fixed_offset_eq, hc]; rfl
  · intro a b ha hb
    rw [new_fixed_offset_eq] at ha
    rw [hc] at hb
    cases ha
    cases hb
    exact ⟨rfl, fun _ => ⟨rfl, rfl, rfl, rfl⟩⟩

/-- The statement of C10 at the offset 19800. -/
theorem C10_trusted_eq_validating_witness :
    (19800 : Int).natAbs < 86400 ∧
      new_fixed_offset { major := 3, minor := 12 } true 19800
        = type_call (initialize_timezone_code { major := 3, minor := 12 }) true
          [PyObject.long 19800] ∧
      new_fixed_offset { major := 3, minor := 12 } true 19800 = some { offset := 19800 } :=
  ⟨by decide,
    (C10_trusted_eq_validating { major := 3, minor := 12 } 19800 true (by decide)).1,
    (C10_trusted_eq_validating { major := 3, minor := 12 } 19800 true (by decide)).2.1⟩

/-! ## Totality, determinism and purity of the queries -/

/-- The timedelta built from a valid offset lasts strictly less than one day. -/
theorem delta_bounds (o : Int) (h : validOffset o) :
    ∃ d us, PyDelta_FromDSU 0 o 0 = some d ∧ deltaMicroseconds d = some us ∧
      -86400000000 < us ∧ us < 86400000000 := by
  obtain ⟨h1, h2⟩ := h
  obtain ⟨d, hd, hus⟩ := delta_ok o h1 h2
  exact ⟨d, o * 1000000, hd, hus, by omega, by omega⟩

/-- The name query returns a string for every instance. -/
theorem tzname_unicode (py : PyVersion) (self : FixedOffset) (args : Option (List PyObject)) :
    ∃ s, (FixedOffset_tzname py self args).value = PyObject.unicode s := by
  unfold FixedOffset_tzname
  simp only []
  split
  · split
    · exact ⟨_, rfl⟩
    · exact ⟨_, rfl⟩
  · exact ⟨_, rfl⟩

/-- C11: on an instance whose offset is strictly within one day no query fails:
utcoffset returns a timedelta, strictly between -24 hours and +24 hours, dst returns
None, tzname and repr return a string, getinitargs returns the 1-tuple of the offset,
and the negation tzname applies to a negative offset stays within the C int range. -/
theorem C11_queries_total (py : PyVersion) (self : FixedOffset)
    (args : Option (List PyObject)) (h : validOffset self.offset) :
    (∃ d us, (FixedOffset_utcoffset self args).value = some d ∧
        deltaMicroseconds d = some us ∧ -86400000000 < us ∧ us < 86400000000) ∧
      (FixedOffset_dst self args).value = PyObject.none ∧
      (∃ s, (FixedOffset_tzname py self args).value = PyObject.unicode s) ∧
      (∃ s, (FixedOffset_repr py self).value = PyObject.unicode s) ∧
      (FixedOffset_getinitargs self).value = [PyObject.long self.offset] ∧
      isInt (self.offset * -1) ∧ wrap32 (self.offset * -1) = self.offset * -1 := by
  refine ⟨delta_bounds self.offset h, rfl, tzname_unicode py self args,
    tzname_unicode py self none, rfl, ?_, ?_⟩
  · unfold validOffset at h
    unfold isInt INT_MIN INT_MAX
    omega
  · unfold validOffset at h
    unfold wrap32
    omega

/-- The statement of C11 on an instance of offset -86399. -/
theorem C11_queries_total_witness :
    validOffset ({ offset := -86399 } : FixedOffset).offset ∧
      (FixedOffset_utcoffset { offset := -86399 } none).value
        = some (PyObject.delta (-1) 1 0) ∧
      (FixedOffset_tzname { major := 3, minor := 12 } { offset := -86399 } none).value
        = PyObject.unicode "UTC-23:59" ∧
      isInt (({ offset := -86399 } : FixedOffset).offset * -1) :=
  ⟨by decide, by decide, by decide,
    (C11_queries_total { major := 3, minor := 12 } { offset := -86399 } none
      (by decide)).2.2.2.2.2.1⟩

/-- C12: two instances constructed with the same valid o, each by the trusted
constructor or by a call of the type, give equal results for the offset query, the DST
query and the display name, whatever the two instant arguments. -/
theorem C12_same_offset_same_answers (py : PyVersion) (o : Int) (a b : FixedOffset)
    (args1 args2 : Option (List PyObject)) (h : o.natAbs < 86400)
    (ha : new_fixed_offset py true o = some a ∨
      type_call (initialize_timezone_code py) true [PyObject.long o] = some a)
    (hb : new_fixed_offset py true o = some b ∨
      type_call (initialize_timezone_code py) true [PyObject.long o] = some b) :
    (FixedOffset_utcoffset a args1).value = (FixedOffset_utcoffset b args2).value ∧
      (FixedOffset_dst a args1).value = (FixedOffset_dst b args2).value ∧
      (FixedOffset_tzname py a args1).value = (FixedOffset_tzname py b args2).value := by
  have hc := type_call_ok py o (by omega) (by omega)
  have hn := new_fixed_offset_eq py true o
  rw [hc, hn] at ha hb
  simp only [if_true, Option.some.injEq, or_self] at ha hb
  subst ha
  subst hb
  exact ⟨rfl, rfl, rfl⟩

/-- The statement of C12 at the offset 19800, one instance from each constructor. -/
theorem C12_same_offset_same_answers_witness :
    (19800 : Int).natAbs < 86400 ∧
      new_fixed_offset { major := 3, minor := 12 } true 19800 = some { offset := 19800 } ∧
      type_call (initialize_timezone_code { major := 3, minor := 12 }) true
        [PyObject.long 19800] = some { offset := 19800 } ∧
      (FixedOffset_utcoffset { offset := 19800 } none).value
        = (FixedOffset_utcoffset { offset := 19800 } (some [PyObject.other 7])).value ∧
      (FixedOffset_dst { offset := 19800 } none).value
        = (FixedOffset_dst { offset := 19800 } (some [PyObject.other 7])).value ∧
      (FixedOffset_tzname { major := 3, minor := 12 } { offset := 19800 } none).value
        = (FixedOffset_tzname { major := 3, minor := 12 } { offset := 19800 }
            (some [PyObject.other 7])).value :=
  ⟨by decide, by decide, by decide,
    C12_same_offset_same_answers { major := 3, minor := 12 } 19800 { offset := 19800 }
      { offset := 19800 } none (some [PyObject.other 7]) (by decide)
      (Or.inl (by decide)) (Or.inr (by decide))⟩

/-! ## The hour mask -/

/-- On a magnitude below one day the C quotient by 3600 is the hour, below 24. -/
theorem hours_lt_24 (m : Int) (h0 : 0 ≤ m) (h : m < 86400) :
    0 ≤ cdiv m SECS_PER_HOUR ∧ cdiv m SECS_PER_HOUR < 24 := by
  have he : cdiv m SECS_PER_HOUR = m / 3600 := Int.tdiv_eq_ediv h0 (by decide)
  rw [he]
  omega

/-- On a magnitude below one day the mask leaves the hour as it is. -/
theorem mask_noop (m : Int) (h0 : 0 ≤ m) (h : m < 86400) :
    cand (cdiv m SECS_PER_HOUR) 31 = cdiv m SECS_PER_HOUR := by
  obtain ⟨h1, h2⟩ := hours_lt_24 m h0 h
  rw [cand_31]
  omega

/-- C13: for every magnitude m with 0 ≤ m < 86400 the masked hour (m / 3600) & 31 is
(m / 3600) mod 32, which is m / 3600 and is below 24; and for every valid offset the
name computed with the mask is the name computed without it. -/
theorem C13_hour_mask_noop (py : PyVersion) (m o : Int) (args : Option (List PyObject))
    (hm0 : 0 ≤ m) (hm : m < 86400) (ho : validOffset o) :
    cand (cdiv m SECS_PER_HOUR) 31 = cdiv m SECS_PER_HOUR % 32 ∧
      cdiv m SECS_PER_HOUR % 32 = cdiv m SECS_PER_HOUR ∧
      cdiv m SECS_PER_HOUR < 24 ∧
      FixedOffset_tzname py { offset := o } args
        = tzname_without_mask py { offset := o } args := by
  obtain ⟨h1, h2⟩ := hours_lt_24 m hm0 hm
  refine ⟨cand_31 _, by omega, h2, ?_⟩
  unfold validOffset at ho
  unfold FixedOffset_tzname tzname_without_mask
  by_cases hz : o = 0
  · simp only [hz, if_true]
  · simp only [hz, if_false]
    by_cases hneg : o < 0
    · have hw : wrap32 (o * -1) = -o := by unfold wrap32; omega
      simp only [hneg, if_true, hw]
      rw [mask_noop (-o) (by omega) (by omega)]
    · simp only [hneg, if_false]
      rw [mask_noop o (by omega) (by omega)]

/-- The statement of C13 at the magnitude 86399 and the offset -86399. -/
theorem C13_hour_mask_noop_witness :
    ((0 : Int) ≤ 86399 ∧ (86399 : Int) < 86400 ∧ validOffset (-86399)) ∧
      cand (cdiv 86399 SECS_PER_HOUR) 31 = cdiv 86399 SECS_PER_HOUR % 32 ∧
      cdiv 86399 SECS_PER_HOUR % 32 = cdiv 86399 SECS_PER_HOUR ∧
      cdiv 86399 SECS_PER_HOUR < 24 ∧
      FixedOffset_tzname { major := 3, minor := 12 } { offset := -86399 } none
        = tzname_without_mask { major := 3, minor := 12 } { offset := -86399 } none :=
  ⟨by decide, C13_hour_mask_noop { major := 3, minor := 12 } 86399 (-86399) none
    (by decide) (by decide) (by decide)⟩

/-! ## Pure reads and the initialiser on an existing instance -/

/-- C14: for every instance and every argument, utcoffset, dst, tzname, repr and
getinitargs leave the instance, and so its stored offset, as it was; tzname negates
only its local copy of a negative offset. -/
theorem C14_queries_pure (py : PyVersion) (self : FixedOffset)
    (args : Option (List PyObject)) :
    (FixedOffset_utcoffset self args).self = self ∧
      (FixedOffset_dst self args).self = self ∧
      (FixedOffset_tzname py self args).self = self ∧
      (FixedOffset_repr py self).self = self ∧
      (FixedOffset_getinitargs self).self = self ∧
      (FixedOffset_tzname py self args).self.offset = self.offset :=
  ⟨rfl, rfl, tzname_self py self args, tzname_self py self none, rfl,
    by rw [tzname_self]⟩

/-- Whenever the range check of the code holds for the argument o, with abs as the
code computes it, the initialiser returns -1 with an exception set and leaves the
instance as it was; for a C int the exception is the ValueError of the range check; and
whatever the arguments, a call that returns -1 leaves the instance as it was. -/
theorem init_check_atomic (self : FixedOffset) (o : Int)
    (h : abs o ≥ TWENTY_FOUR_HOURS_IN_SECONDS) :
    (FixedOffset_init self [PyObject.long o]).ret = -1 ∧
      (FixedOffset_init self [PyObject.long o]).self = self ∧
      (FixedOffset_init self [PyObject.long o]).err ≠ none ∧
      (isInt o → (FixedOffset_init self [PyObject.long o]).err
        = some (PyExc.ValueError invalidOffsetMessage)) ∧
      ∀ args, (FixedOffset_init self args).ret = -1 →
        (FixedOffset_init self args).self = self := by
  have hall : ∀ args, (FixedOffset_init self args).ret = -1 →
      (FixedOffset_init self args).self = self := by
    intro args hr
    rcases init_self self args with ⟨_, hs⟩ | ⟨_, _, hr0, _⟩
    · exact hs
    · rw [hr0] at hr
      exact absurd hr (by decide)
  have key : (¬ isInt o ∧ FixedOffset_init self [PyObject.long o]
        = { ret := -1, self := self, err := some PyExc.OverflowError }) ∨
      FixedOffset_init self [PyObject.long o]
        = { ret := -1, self := self, err := some (PyExc.ValueError invalidOffsetMessage) } := by
    by_cases hi : isInt o
    · right
      have hp := parse_int (PyObject.long o) o (Or.inl rfl) hi
      simp [FixedOffset_init, hp, h]
    · left
      have hp := parse_overflow o hi
      exact ⟨hi, by simp [FixedOffset_init, hp]⟩
  rcases key with ⟨hni, hk⟩ | hk
  · rw [hk]
    exact ⟨rfl, rfl, by simp, fun hi => absurd hi hni, hall⟩
  · rw [hk]
    exact ⟨rfl, rfl, by simp, fun _ => rfl, hall⟩

/-- C15, at the failing input: the argument -2147483648 has magnitude at least 86400,
yet on an instance of offset 3600 the initialiser returns 0 and overwrites the stored
offset with -2147483648, because abs wraps there and the range check does not fire. -/
theorem C15_init_INT_MIN_overwrites :
    (86400 : Int) ≤ ((-2147483648 : Int).natAbs : Int) ∧
      isInt (-2147483648) ∧
      FixedOffset_init { offset := 3600 } [PyObject.long (-2147483648)]
        = { ret := 0, self := { offset := -2147483648 }, err := none } ∧
      (FixedOffset_init { offset := 3600 } [PyObject.long (-2147483648)]).self.offset
        ≠ 3600 := by
  decide

/-! ## The buffer of the name -/

/-- The minute argument of the format lies between 0 and 59 for a non-negative
magnitude. -/
theorem minutes_range (a : Int) (h0 : 0 ≤ a) :
    0 ≤ cmod (cdiv a SECS_PER_MIN) SECS_PER_MIN ∧
      cmod (cdiv a SECS_PER_MIN) SECS_PER_MIN ≤ 59 := by
  have hd : cdiv a SECS_PER_MIN = a / 60 := Int.tdiv_eq_ediv h0 (by decide)
  have hm : cmod (a / 60) SECS_PER_MIN = a / 60 % 60 :=
    Int.tmod_eq_emod (by omega) (by decide)
  rw [hd, hm]
  omega

/-- With two-digit fields the text has nine characters, and a buffer of ten bytes or
more holds it whole. -/
theorem snprintf_tzname_chars (size : Nat) (sign : Char) (h m : Int) (hsize : 10 ≤ size)
    (hh : toUnsigned h < 100) (hm : toUnsigned m < 100) :
    snprintf_tzname size sign h m = String.mk ['U', 'T', 'C', sign,
      Nat.digitChar (toUnsigned h / 10), Nat.digitChar (toUnsigned h % 10), ':',
      Nat.digitChar (toUnsigned m / 10), Nat.digitChar (toUnsigned m % 10)] := by
  unfold snprintf_tzname
  rw [fmt_02u_two_digits _ hh, fmt_02u_two_digits _ hm]
  congr 1
  exact List.take_of_length_le (by simp; omega)

/-- The name of a non-zero offset other than INT_MIN is the format applied to the sign
and to the fields of the magnitude. -/
theorem tzname_general (py : PyVersion) (o : Int) (args : Option (List PyObject))
    (h0 : o ≠ 0) (hlo : INT_MIN < o) (hhi : o ≤ INT_MAX) :
    (FixedOffset_tzname py { offset := o } args).value =
      PyObject.unicode (snprintf_tzname 10 (if o < 0 then '-' else '+')
        (cand (cdiv (o.natAbs : Int) SECS_PER_HOUR) 31)
        (cmod (cdiv (o.natAbs : Int) SECS_PER_MIN) SECS_PER_MIN)) := by
  unfold INT_MIN at hlo
  unfold INT_MAX at hhi
  unfold FixedOffset_tzname
  simp only [h0, if_false]
  by_cases hneg : o < 0
  · have hw : wrap32 (o * -1) = (o.natAbs : Int) := by unfold wrap32; omega
    simp only [hneg, if_true, hw]
  · have hw : (o.natAbs : Int) = o := by omega
    simp only [hneg, if_false, hw]

/-- C16: for every non-zero offset o with INT_MIN < o ≤ INT_MAX the hour field
(|o| / 3600) & 31 lies in 0..31 and the minute field (|o| / 60) mod 60 in 0..59, the
text of the format has exactly nine characters, and it is the name tzname returns from
its 10-byte buffer, the same as from any larger buffer: nothing is cut. -/
theorem C16_name_fits_buffer (py : PyVersion) (o : Int) (args : Option (List PyObject))
    (size : Nat) (h0 : o ≠ 0) (hlo : -2147483648 < o) (hhi : o ≤ 2147483647)
    (hsize : 10 ≤ size) :
    (0 ≤ cand (cdiv (o.natAbs : Int) SECS_PER_HOUR) 31 ∧
        cand (cdiv (o.natAbs : Int) SECS_PER_HOUR) 31 ≤ 31) ∧
      (0 ≤ cmod (cdiv (o.natAbs : Int) SECS_PER_MIN) SECS_PER_MIN ∧
        cmod (cdiv (o.natAbs : Int) SECS_PER_MIN) SECS_PER_MIN ≤ 59) ∧
      ("UTC".toList ++ [if o < 0 then '-' else '+']
        ++ fmt_02u (toUnsigned (cand (cdiv (o.natAbs : Int) SECS_PER_HOUR) 31)) ++ [':']
        ++ fmt_02u (toUnsigned (cmod (cdiv (o.natAbs : Int) SECS_PER_MIN) SECS_PER_MIN))
        ).length = 9 ∧
      ∃ s, (FixedOffset_tzname py { offset := o } args).value = PyObject.unicode s ∧
        s.length = 9 ∧
        snprintf_tzname size (if o < 0 then '-' else '+')
          (cand (cdiv (o.natAbs : Int) SECS_PER_HOUR) 31)
          (cmod (cdiv (o.natAbs : Int) SECS_PER_MIN) SECS_PER_MIN) = s := by
  have hH : 0 ≤ cand (cdiv (o.natAbs : Int) SECS_PER_HOUR) 31 ∧
      cand (cdiv (o.natAbs : Int) SECS_PER_HOUR) 31 ≤ 31 := by
    rw [cand_31]; omega
  have hM := minutes_range (o.natAbs : Int) (by omega)
  have hHu : toUnsigned (cand (cdiv (o.natAbs : Int) SECS_PER_HOUR) 31) < 100 := by
    unfold toUnsigned; omega
  have hMu : toUnsigned (cmod (cdiv (o.natAbs : Int) SECS_PER_MIN) SECS_PER_MIN) < 100 := by
    unfold toUnsigned; omega
  refine ⟨hH, hM, ?_, ?_⟩
  · rw [fmt_02u_two_digits _ hHu, fmt_02u_two_digits _ hMu]
    rfl
  · refine ⟨_, tzname_general py o args h0 (by unfold INT_MIN; omega)
      (by unfold INT_MAX; omega), ?_, ?_⟩
    · rw [snprintf_tzname_chars 10 _ _ _ (by omega) hHu hMu]
      rfl
    · rw [snprintf_tzname_chars size _ _ _ hsize hHu hMu,
        snprintf_tzname_chars 10 _ _ _ (by omega) hHu hMu]

/-- The statement of C16 at the offset INT_MAX and a buffer of 64 bytes. -/
theorem C16_name_fits_buffer_witness :
    ((2147483647 : Int) ≠ 0 ∧ (-2147483648 : Int) < 2147483647 ∧
        (2147483647 : Int) ≤ 2147483647 ∧ 10 ≤ 64) ∧
      (FixedOffset_tzname { major := 3, minor := 12 } { offset := 2147483647 } none).value
        = PyObject.unicode "UTC+11:14" ∧
      (0 ≤ cand (cdiv ((2147483647 : Int).natAbs : Int) SECS_PER_HOUR) 31 ∧
        cand (cdiv ((2147483647 : Int).natAbs : Int) SECS_PER_HOUR) 31 ≤ 31) :=
  ⟨by decide, by decide,
    (C16_name_fits_buffer { major := 3, minor := 12 } 2147483647 none 64 (by decide)
      (by decide) (by decide) (by decide)).1⟩

/-! ## The name as an identifier of the offset -/

/-- Distinct digits have distinct characters. -/
theorem digitChar_inj : ∀ a : Nat, a < 10 → ∀ b : Nat, b < 10 →
    Nat.digitChar a = Nat.digitChar b → a = b := by
  decide

/-- The nine characters of the name of a valid non-zero offset. -/
theorem tzname_chars (py : PyVersion) (o : Int) (args : Option (List PyObject))
    (h0 : o ≠ 0) (h : o.natAbs < 86400) :
    (FixedOffset_tzname py { offset := o } args).value =
      PyObject.unicode (String.mk ['U', 'T', 'C', if o < 0 then '-' else '+',
        Nat.digitChar (o.natAbs / 3600 / 10), Nat.digitChar (o.natAbs / 3600 % 10), ':',
        Nat.digitChar (o.natAbs / 60 % 60 / 10), Nat.digitChar (o.natAbs / 60 % 60 % 10)]) := by
  obtain ⟨hh, hm⟩ := tzname_fields o.natAbs h
  rw [tzname_general py o args h0 (by unfold INT_MIN; omega) (by unfold INT_MAX; omega),
    snprintf_tzname_chars 10 _ _ _ (by omega) (by rw [hh]; omega) (by rw [hm]; omega),
    hh, hm]

/-- Two strings are equal exactly when their characters are. -/
theorem string_mk_eq (a b : List Char) : String.mk a = String.mk b ↔ a = b :=
  ⟨fun h => by injection h, fun h => by rw [h]⟩

/-- The sign character tells a negative offset from a positive one. -/
theorem sign_char_eq (o1 o2 : Int) :
    (if o1 < 0 then '-' else '+') = (if o2 < 0 then '-' else '+') ↔ (o1 < 0 ↔ o2 < 0) := by
  by_cases h1 : o1 < 0 <;> by_cases h2 : o2 < 0 <;> simp [h1, h2]

/-- Two valid non-zero offsets have the same name exactly when they lie on the same
side of zero and have the same whole minutes. -/
theorem tzname_eq_nonzero (py : PyVersion) (o1 o2 : Int)
    (args1 args2 : Option (List PyObject)) (h1 : o1 ≠ 0) (h2 : o2 ≠ 0)
    (hv1 : o1.natAbs < 86400) (hv2 : o2.natAbs < 86400) :
    (FixedOffset_tzname py { offset := o1 } args1).value
        = (FixedOffset_tzname py { offset := o2 } args2).value ↔
      ((o1 < 0 ↔ o2 < 0) ∧ o1.natAbs / 60 = o2.natAbs / 60) := by
  rw [tzname_chars py o1 args1 h1 hv1, tzname_chars py o2 args2 h2 hv2]
  simp only [PyObject.unicode.injEq, string_mk_eq, List.cons.injEq, true_and, and_true,
    sign_char_eq]
  constructor
  · rintro ⟨hs, ha, hb, hc, hd⟩
    have ea := digitChar_inj _ (by omega) _ (by omega) ha
    have eb := digitChar_inj _ (by omega) _ (by omega) hb
    have ec := digitChar_inj _ (by omega) _ (by omega) hc
    have ed := digitChar_inj _ (by omega) _ (by omega) hd
    exact ⟨hs, by omega⟩
  · rintro ⟨hs, hq⟩
    have eH : o1.natAbs / 3600 = o2.natAbs / 3600 := by omega
    rw [eH, hq]
    exact ⟨hs, rfl, rfl, rfl, rfl⟩

/-- In a build for a Python older than 3.6 the name of every valid offset, zero
included, is made of the same nine characters. -/
theorem tzname_chars_legacy (py : PyVersion) (o : Int) (args : Option (List PyObject))
    (hpy : PY_VERSION_AT_LEAST_36 py = false) (h : o.natAbs < 86400) :
    (FixedOffset_tzname py { offset := o } args).value =
      PyObject.unicode (String.mk ['U', 'T', 'C', if o < 0 then '-' else '+',
        Nat.digitChar (o.natAbs / 3600 / 10), Nat.digitChar (o.natAbs / 3600 % 10), ':',
        Nat.digitChar (o.natAbs / 60 % 60 / 10), Nat.digitChar (o.natAbs / 60 % 60 % 10)]) := by
  by_cases h0 : o = 0
  · subst h0
    simp only [FixedOffset_tzname, hpy, if_true]
    decide
  · exact tzname_chars py o args h0 h

/-- In a build for a Python older than 3.6 two valid offsets have the same name exactly
when they are negative together and have the same whole minutes. -/
theorem tzname_eq_legacy (py : PyVersion) (o1 o2 : Int)
    (args1 args2 : Option (List PyObject)) (hpy : PY_VERSION_AT_LEAST_36 py = false)
    (hv1 : o1.natAbs < 86400) (hv2 : o2.natAbs < 86400) :
    (FixedOffset_tzname py { offset := o1 } args1).value
        = (FixedOffset_tzname py { offset := o2 } args2).value ↔
      ((o1 < 0 ↔ o2 < 0) ∧ o1.natAbs / 60 = o2.natAbs / 60) := by
  rw [tzname_chars_legacy py o1 args1 hpy hv1, tzname_chars_legacy py o2 args2 hpy hv2]
  simp only [PyObject.unicode.injEq, string_mk_eq, List.cons.injEq, true_and, and_true,
    sign_char_eq]
  constructor
  · rintro ⟨hs, ha, hb, hc, hd⟩
    have ea := digitChar_inj _ (by omega) _ (by omega) ha
    have eb := digitChar_inj _ (by omega) _ (by omega) hb
    have ec := digitChar_inj _ (by omega) _ (by omega) hc
    have ed := digitChar_inj _ (by omega) _ (by omega) hd
    exact ⟨hs, by omega⟩
  · rintro ⟨hs, hq⟩
    have eH : o1.natAbs / 3600 = o2.natAbs / 3600 := by omega
    rw [eH, hq]
    exact ⟨hs, rfl, rfl, rfl, rfl⟩

/-- A valid offset other than 0 is never named UTC, in any build. -/
theorem tzname_utc_zero (py : PyVersion) (o : Int) (args : Option (List PyObject))
    (hv : o.natAbs < 86400)
    (hn : (FixedOffset_tzname py { offset := o } args).value = PyObject.unicode "UTC") :
    o = 0 := by
  by_contra h0
  rw [tzname_chars py o args h0 hv] at hn
  have hl := congrArg String.length (PyObject.unicode.inj hn)
  simp [String.length] at hl

/-- In a build for Python 3.6 or later the name UTC belongs to the offset 0 alone
among the valid offsets. -/
theorem tzname_utc_iff (py : PyVersion) (o : Int) (args : Option (List PyObject))
    (hpy : PY_VERSION_AT_LEAST_36 py = true) (hv : o.natAbs < 86400) :
    (FixedOffset_tzname py { offset := o } args).value = PyObject.unicode "UTC" ↔ o = 0 := by
  constructor
  · intro hn
    by_contra h0
    rw [tzname_chars py o args h0 hv] at hn
    have hl := congrArg String.length (PyObject.unicode.inj hn)
    simp [String.length] at hl
  · intro h0
    subst h0
    simp [FixedOffset_tzname, hpy]

/-- Two integers have the same sign exactly when they are negative together and zero
together. -/
theorem sign_eq_iff (a b : Int) :
    Int.sign a = Int.sign b ↔ ((a < 0 ↔ b < 0) ∧ (a = 0 ↔ b = 0)) := by
  rcases lt_trichotomy a 0 with ha | ha | ha <;> rcases lt_trichotomy b 0 with hb | hb | hb
  · rw [Int.sign_eq_neg_one_of_neg ha, Int.sign_eq_neg_one_of_neg hb]
    constructor
    · intro _; constructor <;> constructor <;> intro <;> omega
    · intro _; rfl
  · subst hb
    rw [Int.sign_eq_neg_one_of_neg ha, Int.sign_zero]
    constructor
    · intro h; exact absurd h (by decide)
    · rintro ⟨_, h⟩; omega
  · rw [Int.sign_eq_neg_one_of_neg ha, Int.sign_eq_one_of_pos hb]
    constructor
    · intro h; exact absurd h (by decide)
    · rintro ⟨h, _⟩; omega
  · subst ha
    rw [Int.sign_eq_neg_one_of_neg hb, Int.sign_zero]
    constructor
    · intro h; exact absurd h (by decide)
    · rintro ⟨_, h⟩; omega
  · subst ha; subst hb
    simp
  · subst ha
    rw [Int.sign_eq_one_of_pos hb, Int.sign_zero]
    constructor
    · intro h; exact absurd h (by decide)
    · rintro ⟨_, h⟩; omega
  · rw [Int.sign_eq_one_of_pos ha, Int.sign_eq_neg_one_of_neg hb]
    constructor
    · intro h; exact absurd h (by decide)
    · rintro ⟨h, _⟩; omega
  · subst hb
    rw [Int.sign_eq_one_of_pos ha, Int.sign_zero]
    constructor
    · intro h; exact absurd h (by decide)
    · rintro ⟨_, h⟩; omega
  · rw [Int.sign_eq_one_of_pos ha, Int.sign_eq_one_of_pos hb]
    constructor
    · intro _; constructor <;> constructor <;> intro <;> omega
    · intro _; rfl

/-- C17, as stated, fails for a build against Python 3.5: the offsets 0 and 30 are
both named UTC+00:00 there, though one is zero and the other positive, and no offset
is named UTC. -/
theorem C17_legacy_counterexample :
    (FixedOffset_tzname { major := 3, minor := 5 } { offset := 0 } none).value
        = (FixedOffset_tzname { major := 3, minor := 5 } { offset := 30 } none).value ∧
      (FixedOffset_tzname { major := 3, minor := 5 } { offset := 0 } none).value
        = PyObject.unicode "UTC+00:00" ∧
      Int.sign 0 ≠ Int.sign 30 := by
  decide

/-- C17, amended: for valid offsets o1 and o2, (1) when the file is compiled for
Python 3.6 or later, or neither offset is 0, or both are, the names are equal if and
only if o1 and o2 have the same sign and the same whole minutes |o| / 60; (2) in a
build for an older Python, where 0 is named UTC+00:00, the names are equal if and only
if o1 and o2 are negative together and have the same whole minutes; (3) in every build
the name is injective on the valid multiples of 60; (4) an offset is named UTC exactly
when it is 0 and the file is compiled for Python 3.6 or later. -/
theorem C17_name_identifies_minutes (py : PyVersion) (o1 o2 : Int)
    (args1 args2 : Option (List PyObject))
    (hv1 : o1.natAbs < 86400) (hv2 : o2.natAbs < 86400) :
    ((PY_VERSION_AT_LEAST_36 py = true ∨ (o1 ≠ 0 ∧ o2 ≠ 0) ∨ (o1 = 0 ∧ o2 = 0)) →
        ((FixedOffset_tzname py { offset := o1 } args1).value
            = (FixedOffset_tzname py { offset := o2 } args2).value ↔
          (Int.sign o1 = Int.sign o2 ∧ o1.natAbs / 60 = o2.natAbs / 60))) ∧
      (PY_VERSION_AT_LEAST_36 py = false →
        ((FixedOffset_tzname py { offset := o1 } args1).value
            = (FixedOffset_tzname py { offset := o2 } args2).value ↔
          ((o1 < 0 ↔ o2 < 0) ∧ o1.natAbs / 60 = o2.natAbs / 60))) ∧
      ((60 : Int) ∣ o1 → (60 : Int) ∣ o2 →
        (FixedOffset_tzname py { offset := o1 } args1).value
          = (FixedOffset_tzname py { offset := o2 } args2).value → o1 = o2) ∧
      ((FixedOffset_tzname py { offset := o1 } args1).value = PyObject.unicode "UTC"
        ↔ (o1 = 0 ∧ PY_VERSION_AT_LEAST_36 py = true)) := by
  have nonzero : o1 ≠ 0 → o2 ≠ 0 →
      ((FixedOffset_tzname py { offset := o1 } args1).value
          = (FixedOffset_tzname py { offset := o2 } args2).value ↔
        (Int.sign o1 = Int.sign o2 ∧ o1.natAbs / 60 = o2.natAbs / 60)) := by
    intro h1 h2
    rw [sign_eq_iff, tzname_eq_nonzero py o1 o2 args1 args2 h1 h2 hv1 hv2]
    constructor
    · rintro ⟨hs, hq⟩
      exact ⟨⟨hs, ⟨fun h => absurd h h1, fun h => absurd h h2⟩⟩, hq⟩
    · rintro ⟨⟨hs, _⟩, hq⟩
      exact ⟨hs, hq⟩
  have modern : PY_VERSION_AT_LEAST_36 py = true →
      ((FixedOffset_tzname py { offset := o1 } args1).value
          = (FixedOffset_tzname py { offset := o2 } args2).value ↔
        (Int.sign o1 = Int.sign o2 ∧ o1.natAbs / 60 = o2.natAbs / 60)) := by
    intro hpy
    by_cases h1 : o1 = 0
    · by_cases h2 : o2 = 0
      · subst h1; subst h2
        simp [FixedOffset_tzname]
      · rw [sign_eq_iff]
        have hz := (tzname_utc_iff py o1 args1 hpy hv1).2 h1
        have hn := tzname_utc_iff py o2 args2 hpy hv2
        constructor
        · intro he
          rw [hz] at he
          exact absurd (hn.1 he.symm) h2
        · rintro ⟨⟨_, hzz⟩, _⟩
          exact absurd (hzz.1 h1) h2
    · by_cases h2 : o2 = 0
      · rw [sign_eq_iff]
        have hz := (tzname_utc_iff py o2 args2 hpy hv2).2 h2
        have hn := tzname_utc_iff py o1 args1 hpy hv1
        constructor
        · intro he
          rw [hz] at he
          exact absurd (hn.1 he) h1
        · rintro ⟨⟨_, hzz⟩, _⟩
          exact absurd (hzz.2 h2) h1
      · exact nonzero h1 h2
  refine ⟨?_, fun hpy => tzname_eq_legacy py o1 o2 args1 args2 hpy hv1 hv2, ?_, ?_⟩
  · rintro (hpy | ⟨h1, h2⟩ | ⟨h1, h2⟩)
    · exact modern hpy
    · exact nonzero h1 h2
    · subst h1; subst h2
      simp [FixedOffset_tzname]
  · intro hd1 hd2 he
    have hside : (o1 < 0 ↔ o2 < 0) ∧ o1.natAbs / 60 = o2.natAbs / 60 := by
      cases hpy : PY_VERSION_AT_LEAST_36 py with
      | false => exact (tzname_eq_legacy py o1 o2 args1 args2 hpy hv1 hv2).1 he
      | true =>
        obtain ⟨hs, hq⟩ := (modern hpy).1 he
        exact ⟨((sign_eq_iff o1 o2).1 hs).1, hq⟩
    obtain ⟨hneg, hq⟩ := hside
    by_cases hn1 : o1 < 0
    · have hn2 := hneg.1 hn1
      omega
    · have hn2 : ¬ o2 < 0 := fun h => hn1 (hneg.2 h)
      omega
  · constructor
    · intro hn
      have h0 := tzname_utc_zero py o1 args1 hv1 hn
      refine ⟨h0, ?_⟩
      subst h0
      cases hpy : PY_VERSION_AT_LEAST_36 py with
      | true => rfl
      | false =>
        rw [tzname_chars_legacy py 0 args1 hpy (by decide)] at hn
        exact absurd hn (by decide)
    · rintro ⟨h0, hpy⟩
      exact (tzname_utc_iff py o1 args1 hpy hv1).2 h0

/-- The amended C17 in a build for Python 3.5: the offsets 19800 and 19859 share a
name, and the offsets 0 and 30 are told apart by nothing but their sides of zero. -/
theorem C17_name_identifies_minutes_witness :
    ((19800 : Int).natAbs < 86400 ∧ (19859 : Int).natAbs < 86400) ∧
      ((FixedOffset_tzname { major := 3, minor := 5 } { offset := 19800 } none).value
          = (FixedOffset_tzname { major := 3, minor := 5 } { offset := 19859 } none).value ↔
        (Int.sign 19800 = Int.sign 19859 ∧
          (19800 : Int).natAbs / 60 = (19859 : Int).natAbs / 60)) ∧
      ((FixedOffset_tzname { major := 3, minor := 5 } { offset := 0 } none).value
          = (FixedOffset_tzname { major := 3, minor := 5 } { offset := 30 } none).value ↔
        (((0 : Int) < 0 ↔ (30 : Int) < 0) ∧
          (0 : Int).natAbs / 60 = (30 : Int).natAbs / 60)) :=
  ⟨by decide,
    (C17_name_identifies_minutes { major := 3, minor := 5 } 19800 19859 none none
      (by decide) (by decide)).1 (Or.inr (Or.inl (by decide))),
    (C17_name_identifies_minutes { major := 3, minor := 5 } 0 30 none none
      (by decide) (by decide)).2.1 (by decide)⟩

/-! ## The fields as a decomposition of the magnitude -/

/-- C18: for every m with 0 ≤ m < 86400, the hour h = m / 3600 and the minute
n = (m / 60) mod 60 of the C arithmetic satisfy h ≤ 23, n ≤ 59 and
0 ≤ m - (3600 h + 60 n) < 60, the masked hour is h, and for m ≠ 0 the name tzname
returns for the offsets m and -m is UTC, the sign, the two digits of h, a colon and the
two digits of n. -/
theorem C18_fields_decompose (py : PyVersion) (m : Int) (args : Option (List PyObject))
    (h0 : 0 ≤ m) (hlt : m < 86400) :
    cdiv m SECS_PER_HOUR ≤ 23 ∧
      cmod (cdiv m SECS_PER_MIN) SECS_PER_MIN ≤ 59 ∧
      0 ≤ m - (3600 * cdiv m SECS_PER_HOUR
        + 60 * cmod (cdiv m SECS_PER_MIN) SECS_PER_MIN) ∧
      m - (3600 * cdiv m SECS_PER_HOUR
        + 60 * cmod (cdiv m SECS_PER_MIN) SECS_PER_MIN) < 60 ∧
      0 ≤ cdiv m SECS_PER_HOUR ∧ 0 ≤ cmod (cdiv m SECS_PER_MIN) SECS_PER_MIN ∧
      cand (cdiv m SECS_PER_HOUR) 31 = cdiv m SECS_PER_HOUR ∧
      (m ≠ 0 →
        (FixedOffset_tzname py { offset := m } args).value =
          PyObject.unicode (String.mk ['U', 'T', 'C', '+',
            Nat.digitChar ((cdiv m SECS_PER_HOUR).toNat / 10),
            Nat.digitChar ((cdiv m SECS_PER_HOUR).toNat % 10), ':',
            Nat.digitChar ((cmod (cdiv m SECS_PER_MIN) SECS_PER_MIN).toNat / 10),
            Nat.digitChar ((cmod (cdiv m SECS_PER_MIN) SECS_PER_MIN).toNat % 10)]) ∧
        (FixedOffset_tzname py { offset := -m } args).value =
          PyObject.unicode (String.mk ['U', 'T', 'C', '-',
            Nat.digitChar ((cdiv m SECS_PER_HOUR).toNat / 10),
            Nat.digitChar ((cdiv m SECS_PER_HOUR).toNat % 10), ':',
            Nat.digitChar ((cmod (cdiv m SECS_PER_MIN) SECS_PER_MIN).toNat / 10),
            Nat.digitChar ((cmod (cdiv m SECS_PER_MIN) SECS_PER_MIN).toNat % 10)])) := by
  have hh : cdiv m SECS_PER_HOUR = m / 3600 := Int.tdiv_eq_ediv h0 (by decide)
  have hd : cdiv m SECS_PER_MIN = m / 60 := Int.tdiv_eq_ediv h0 (by decide)
  have hm : cmod (m / 60) SECS_PER_MIN = m / 60 % 60 :=
    Int.tmod_eq_emod (by omega) (by decide)
  have hmask := mask_noop m h0 hlt
  rw [hh] at hmask
  rw [hh, hd, hm]
  refine ⟨by omega, by omega, by omega, by omega, by omega, by omega, hmask, ?_⟩
  intro hne
  have eH : (m / 3600).toNat = m.natAbs / 3600 := by omega
  have eN : (m / 60 % 60).toNat = m.natAbs / 60 % 60 := by omega
  have eH2 : (-m).natAbs / 3600 = m.natAbs / 3600 := by rw [Int.natAbs_neg]
  have eN2 : (-m).natAbs / 60 % 60 = m.natAbs / 60 % 60 := by rw [Int.natAbs_neg]
  have hpos : ¬ (m < 0) := by omega
  have hneg : -m < 0 := by omega
  constructor
  · rw [tzname_chars py m args hne (by omega), eH, eN]
    simp only [hpos, if_false]
  · rw [tzname_chars py (-m) args (by omega) (by omega), eH, eN, eH2, eN2]
    simp only [hneg, if_true]

/-- The statement of C18 at the magnitude 86399: 23 hours, 59 minutes, 59 seconds
left over, and the names UTC+23:59 and UTC-23:59. -/
theorem C18_fields_decompose_witness :
    ((0 : Int) ≤ 86399 ∧ (86399 : Int) < 86400) ∧
      cdiv 86399 SECS_PER_HOUR = 23 ∧
      cmod (cdiv 86399 SECS_PER_MIN) SECS_PER_MIN = 59 ∧
      (86399 : Int) - (3600 * cdiv 86399 SECS_PER_HOUR
        + 60 * cmod (cdiv 86399 SECS_PER_MIN) SECS_PER_MIN) < 60 ∧
      (FixedOffset_tzname { major := 3, minor := 12 } { offset := 86399 } none).value
        = PyObject.unicode "UTC+23:59" ∧
      (FixedOffset_tzname { major := 3, minor := 12 } { offset := -86399 } none).value
        = PyObject.unicode "UTC-23:59" :=
  ⟨by decide, by decide, by decide,
    (C18_fields_decompose { major := 3, minor := 12 } 86399 none (by decide)
      (by decide)).2.2.2.1,
    (((C18_fields_decompose { major := 3, minor := 12 } 86399 none (by decide)
      (by decide)).2.2.2.2.2.2.2 (by decide)).1).trans (by decide),
    (((C18_fields_decompose { major := 3, minor := 12 } 86399 none (by decide)
      (by decide)).2.2.2.2.2.2.2 (by decide)).2).trans (by decide)⟩

end Timezone
